import Mathlib

/-!
Verification development for the gl-thin GPU resource/state layer and the
OpenXR stereo presentation loop (crates gl-thin, bob-shaders, example1).

Each Rust function relevant to the claims is shallowly embedded as a Lean
definition.  Native OpenGL state (binding points, the error queue, the
handle allocator) is passed explicitly; fallible Rust code returns
`Except`, and Rust code that can panic returns a `RustOutcome` with an
explicit `panicked` constructor.
-/

namespace GlThin

/-- A native OpenGL error code (`GLenum`). -/
abbrev GLenum := Nat

/-- `gl::NO_ERROR` is the zero code. -/
def NO_ERROR : GLenum := 0

/-- The messages attached to a `GLErrorWrapper`, from gl_helper.rs
(`MessageForError`): none, or a C string / Rust string.  Both string
variants carry a Lean `String` here. -/
inductive MessageForError where
  | none : MessageForError
  | cstr : String → MessageForError
  | str : String → MessageForError
deriving DecidableEq, Repr

/-- `GLErrorWrapper` from gl_helper.rs: an error code plus an optional
message. -/
structure GLErrorWrapper where
  code : GLenum
  message : MessageForError
deriving DecidableEq, Repr

namespace GLErrorWrapper

/-- `GLErrorWrapper::with_message` — code 0, C-string message. -/
def with_message (msg : String) : GLErrorWrapper :=
  { code := 0, message := MessageForError.cstr msg }

/-- `GLErrorWrapper::with_message2` — code 0, Rust-string message. -/
def with_message2 (msg : String) : GLErrorWrapper :=
  { code := 0, message := MessageForError.str msg }

/-- `GLErrorWrapper::new` — a raw error code, no message. -/
def new (code : GLenum) : GLErrorWrapper :=
  { code := code, message := MessageForError.none }

end GLErrorWrapper

/-- The native error queue: `gl::GetError` pops the front entry, or reports
`NO_ERROR` when the queue is empty. -/
def getError : List GLenum → GLenum × List GLenum
  | [] => (NO_ERROR, [])
  | e :: rest => (e, rest)

/-- The polling loop inside `explode_if_gl_error` (gl_helper.rs:16-31):
repeatedly call `gl::GetError`, remembering the last non-`NO_ERROR` code,
until the queue reports `NO_ERROR`.  Returns the recorded last error and
the remaining queue. -/
def drainLoop : List GLenum → Option GLenum → Option GLenum × List GLenum
  | [], last => (last, [])
  | e :: rest, last =>
      if e = NO_ERROR then (last, rest)
      else drainLoop rest (some e)

/-- `explode_if_gl_error` (gl_helper.rs:16-31): drain the error queue;
`Ok` when no non-`NO_ERROR` code was seen, otherwise `Err` wrapping the
last code seen.  Also returns the queue state after the drain. -/
def explode_if_gl_error (queue : List GLenum) :
    Except GLErrorWrapper Unit × List GLenum :=
  let (last, rest) := drainLoop queue Option.none
  match last with
  | some e => (Except.error (GLErrorWrapper.new e), rest)
  | Option.none => (Except.ok (), rest)

/-!
## Binding points and the `BoundBuffers` token (gl_fancy.rs)

The native binding calls issued by `GPUState::bind_vertex_array_and_buffers`
and by `impl Drop for BoundBuffers` are modelled as a trace of `BindCall`s;
applying a trace to a `GLBindings` state gives the native binding points
after the calls.
-/

/-- One native binding call relevant to the `BoundBuffers` token:
`gl::BindVertexArray`, `gl::BindBuffer(gl::ARRAY_BUFFER, _)` or
`gl::BindBuffer(gl::ELEMENT_ARRAY_BUFFER, _)`, each with the handle passed
(0 is the null/default handle). -/
inductive BindCall where
  | bindVertexArray (handle : Nat)
  | bindArrayBuffer (handle : Nat)
  | bindElementArrayBuffer (handle : Nat)
deriving DecidableEq, Repr

/-- The three native binding points touched by `BoundBuffers`. -/
structure GLBindings where
  vertexArrayBinding : Nat
  arrayBufferBinding : Nat
  elementArrayBufferBinding : Nat
deriving DecidableEq, Repr

/-- Effect of one binding call on the native binding points. -/
def applyBindCall (s : GLBindings) : BindCall → GLBindings
  | BindCall.bindVertexArray h => { s with vertexArrayBinding := h }
  | BindCall.bindArrayBuffer h => { s with arrayBufferBinding := h }
  | BindCall.bindElementArrayBuffer h => { s with elementArrayBufferBinding := h }

/-- Effect of a trace of binding calls, applied left to right. -/
def applyBindCalls (s : GLBindings) (calls : List BindCall) : GLBindings :=
  calls.foldl applyBindCall s

/-- The binding calls issued by `GPUState::bind_vertex_array_and_buffers`
(gl_fancy.rs:29-44): `vertex_array.bind()`, then `vertex_buffer.bind()`,
then `index_buffer.bind()`.  `VertexArray::bind` is `gl::BindVertexArray`
(gl_helper.rs:136-139); `Buffer::<ArrayBufferType,_>::bind` is
`gl::BindBuffer(gl::ARRAY_BUFFER, handle)` and
`Buffer::<ElementArrayBufferType,_>::bind` is
`gl::BindBuffer(gl::ELEMENT_ARRAY_BUFFER, handle)` (gl_helper.rs:278-281). -/
def bind_vertex_array_and_buffers (vertex_array vertex_buffer index_buffer : Nat) :
    List BindCall :=
  [BindCall.bindVertexArray vertex_array,
   BindCall.bindArrayBuffer vertex_buffer,
   BindCall.bindElementArrayBuffer index_buffer]

/-- The binding calls issued by `impl Drop for BoundBuffers`
(gl_fancy.rs:133-141): `gl::BindBuffer(gl::ELEMENT_ARRAY_BUFFER, 0)`, then
`gl::BindBuffer(gl::ARRAY_BUFFER, 0)`, then `gl::BindVertexArray(0)`. -/
def boundBuffersDropCalls : List BindCall :=
  [BindCall.bindElementArrayBuffer 0,
   BindCall.bindArrayBuffer 0,
   BindCall.bindVertexArray 0]

/-- A `BoundBuffers` token's own operations (`rig_one_attribute`,
`rig_one_attribute_by_name`, `draw_elements`, gl_fancy.rs:82-131) issue
`gl::VertexAttribPointer`, `gl::EnableVertexAttribArray` and
`gl::DrawElements`, none of which is a binding call: a use phase
contributes no `BindCall` to the trace. -/
def boundBuffersUseCalls : List BindCall := []

/-!
## Texture upload validation (gl_fancy.rs `BoundTexture::write_pixels`,
gl_helper.rs `bytes_per_pixel`)
-/

/-- `gl::RGB`, `gl::RED`, `gl::RGBA` (numeric values from the OpenGL
headers). -/
def RGB : GLenum := 0x1907
def RED : GLenum := 0x1903
def RGBA : GLenum := 0x1908

/-- Message built by `bytes_per_pixel` for an unhandled format. -/
def unhandledFormatMsg (format : GLenum) : String :=
  "unhandled format 0x" ++ (Nat.toDigits 16 format).asString

/-- `bytes_per_pixel::<T>(format)` (gl_helper.rs:841-856): number of
components for the format times `size_of::<T>()`; `Err` for any other
format.  `sizeT` is `size_of::<T>()` for the pixel element type `T`. -/
def bytes_per_pixel (sizeT : Nat) (format : GLenum) :
    Except GLErrorWrapper Nat :=
  if format = RGB then Except.ok (3 * sizeT)
  else if format = RED then Except.ok (1 * sizeT)
  else if format = RGBA then Except.ok (4 * sizeT)
  else Except.error (GLErrorWrapper.with_message2 (unhandledFormatMsg format))

/-- The `as usize` cast of an `i32` value in
`(width * height) as usize` (64-bit target): two's-complement
reinterpretation (sign extension, then reinterpretation as unsigned). -/
def castUsize (z : Int) : Nat := (z % (2 ^ 64)).toNat

/-- The Rust `i32` multiply in `width * height` (gl_fancy.rs:492), whose
operands are `GLsizei = i32`: the product wraps to its two's-complement
representative in release builds.  (A debug build panics on overflow
instead; the shipped release behaviour is what is modelled, and either
way no size-mismatch error is raised on overflow.) -/
def wrapI32 (z : Int) : Int := (z + 2 ^ 31) % 2 ^ 32 - 2 ^ 31

/-- The message of the size-mismatch error in `write_pixels`
(gl_fancy.rs:493-499): `"size mismatch : {w}*{h}*{bpp} != {len}"`. -/
def sizeMismatchMsg (width height : Int) (bpp len : Nat) : String :=
  "size mismatch : " ++ toString width ++ "*" ++ toString height ++ "*"
    ++ toString bpp ++ " != " ++ toString len

/-- `BoundTexture::write_pixels` (gl_fancy.rs:482-516).  `sizeT` is
`size_of::<T>()`, `pixelsLen` is `pixels.len()` (a count of `T` elements),
and `queueAfterUpload` is the native error queue observed after the
`gl::TexImage2D` call.  The size check computes
`(width * height) as usize * bpp` where `width * height` is a wrapping
`i32` multiply (see `wrapI32`).  Returns whether the native upload was
issued, and the call's result. -/
def write_pixels (sizeT : Nat) (width height : Int) (format : GLenum)
    (pixelsLen : Nat) (queueAfterUpload : List GLenum) :
    Bool × Except GLErrorWrapper Unit :=
  match bytes_per_pixel sizeT format with
  | Except.error e => (false, Except.error e)
  | Except.ok bpp =>
    if castUsize (wrapI32 (width * height)) * bpp ≠ pixelsLen then
      (false, Except.error (GLErrorWrapper.with_message2
        (sizeMismatchMsg width height bpp pixelsLen)))
    else
      (true, (explode_if_gl_error queueAfterUpload).1)

/-!
## Rust outcomes

Rust code in gl_helper.rs either returns `Result<T, GLErrorWrapper>` or
panics (`panic!`, `.unwrap()`).  `RustOutcome` makes the panic path
explicit.
-/

/-- Outcome of running a Rust function that may return `Ok`, return `Err`,
or panic. -/
inductive RustOutcome (α : Type) where
  | ok (a : α) : RustOutcome α
  | err (e : GLErrorWrapper) : RustOutcome α
  | panicked (msg : String) : RustOutcome α
deriving DecidableEq, Repr

/-- Panic message produced by `Result::unwrap` on an `Err` value
(abstracted: the code after the colon is the Debug text of the error). -/
def unwrapPanicMsg : String := "called Result::unwrap() on an Err value"

/-!
## Shader and Program compilation (gl_helper.rs:306-416)

The native side of each step is represented by the error queue observed
right after the step's native calls, plus the compile/link status flags
and info logs the native API reports.
-/

/-- The native-side inputs consumed by `Shader::compile`
(gl_helper.rs:312-340): the error queues observed after
`gl::CreateShader` (`new_raw`), after `gl::ShaderSource`, and after
`gl::CompileShader`; the `gl::COMPILE_STATUS` flag; and the shader info
log. -/
structure ShaderWorld where
  newRawQueue : List GLenum
  sourceQueue : List GLenum
  compileQueue : List GLenum
  compileStatus : Bool
  infoLog : String
deriving DecidableEq, Repr

/-- `Shader::compile` (gl_helper.rs:321-340): `new_raw()?` (create +
error check), `gl::ShaderSource` + error check, `gl::CompileShader` +
error check, then read `gl::COMPILE_STATUS`; when zero, return
`Err(GLErrorWrapper::with_message(info_log))`.  Every failure propagates
with the `?` operator. -/
def Shader.compile (w : ShaderWorld) : Except GLErrorWrapper Unit :=
  match (explode_if_gl_error w.newRawQueue).1 with
  | Except.error e => Except.error e
  | Except.ok _ =>
  match (explode_if_gl_error w.sourceQueue).1 with
  | Except.error e => Except.error e
  | Except.ok _ =>
  match (explode_if_gl_error w.compileQueue).1 with
  | Except.error e => Except.error e
  | Except.ok _ =>
  if w.compileStatus then Except.ok ()
  else Except.error (GLErrorWrapper.with_message w.infoLog)

/-- The native-side inputs consumed by `Program::compile`
(gl_helper.rs:391-416): the two shader stages' worlds, the error queues
observed after `gl::CreateProgram`, after each `gl::AttachShader`, after
`gl::LinkProgram`, and after `gl::GetProgramiv(LINK_STATUS)`; the link
status flag; and the program info log. -/
structure ProgramWorld where
  vertex : ShaderWorld
  fragment : ShaderWorld
  createProgramQueue : List GLenum
  attachVertexQueue : List GLenum
  attachFragmentQueue : List GLenum
  linkQueue : List GLenum
  linkStatusQueue : List GLenum
  linkStatus : Bool
  programInfoLog : String
deriving DecidableEq, Repr

/-- `Program::compile` (gl_helper.rs:391-416).  The two stages are
compiled with `?` (failures return `Err`); `Self::new_empty().unwrap()`,
`rval.attach(..).unwrap()` (twice), and the two
`explode_if_gl_error().unwrap()` calls around linking panic on failure;
a zero `LINK_STATUS` returns
`Err(GLErrorWrapper::with_message(program_info_log))`; on success both
shaders are detached (no error check) and the program is returned. -/
def Program.compile (w : ProgramWorld) : RustOutcome Unit :=
  match Shader.compile w.vertex with
  | Except.error e => RustOutcome.err e
  | Except.ok _ =>
  match Shader.compile w.fragment with
  | Except.error e => RustOutcome.err e
  | Except.ok _ =>
  match (explode_if_gl_error w.createProgramQueue).1 with
  | Except.error _ => RustOutcome.panicked unwrapPanicMsg
  | Except.ok _ =>
  match (explode_if_gl_error w.attachVertexQueue).1 with
  | Except.error _ => RustOutcome.panicked unwrapPanicMsg
  | Except.ok _ =>
  match (explode_if_gl_error w.attachFragmentQueue).1 with
  | Except.error _ => RustOutcome.panicked unwrapPanicMsg
  | Except.ok _ =>
  match (explode_if_gl_error w.linkQueue).1 with
  | Except.error _ => RustOutcome.panicked unwrapPanicMsg
  | Except.ok _ =>
  match (explode_if_gl_error w.linkStatusQueue).1 with
  | Except.error _ => RustOutcome.panicked unwrapPanicMsg
  | Except.ok _ =>
  if w.linkStatus then RustOutcome.ok ()
  else RustOutcome.err (GLErrorWrapper.with_message w.programInfoLog)

/-!
## Attribute and uniform location lookup (gl_helper.rs:440-461)

A linked program's reflection tables are modelled as functions from a
name to the `GLint` the native `gl::GetUniformLocation` /
`gl::GetAttribLocation` call returns (negative means absent).  Lookups do
not mutate the program, so both take the table as a plain function.
-/

/-- `Program::get_uniform_location` (gl_helper.rs:440-450):
`CString::new(name).unwrap()` panics on an interior NUL byte; otherwise
call `gl::GetUniformLocation`, drain the error queue with `?`, and when
the returned slot is negative fail with
`GLErrorWrapper::with_message("no attribute named {name}")` (the message
text says "attribute" in the source even for uniforms). -/
def Program.get_uniform_location (uniforms : String → Int)
    (queue : List GLenum) (name : String) : RustOutcome Nat :=
  if name.data.any (fun c => c = Char.ofNat 0) then
    RustOutcome.panicked unwrapPanicMsg
  else
    let rval := uniforms name
    match (explode_if_gl_error queue).1 with
    | Except.error e => RustOutcome.err e
    | Except.ok _ =>
      if rval < 0 then
        RustOutcome.err (GLErrorWrapper.with_message
          ("no attribute named " ++ name))
      else RustOutcome.ok rval.toNat

/-- `Program::get_attribute_location` (gl_helper.rs:452-461): like the
uniform lookup, but when the returned slot is negative the source
executes `panic!("no attribute named {} on this program", p0)` instead of
returning an error. -/
def Program.get_attribute_location (attributes : String → Int)
    (queue : List GLenum) (p0 : String) : RustOutcome Nat :=
  if p0.data.any (fun c => c = Char.ofNat 0) then
    RustOutcome.panicked unwrapPanicMsg
  else
    let rval := attributes p0
    match (explode_if_gl_error queue).1 with
    | Except.error e => RustOutcome.err e
    | Except.ok _ =>
      if rval < 0 then
        RustOutcome.panicked ("no attribute named " ++ p0 ++ " on this program")
      else RustOutcome.ok rval.toNat

/-!
## Handle ownership and destruction (gl_helper.rs:91-106, 372-378, 780-787)
-/

/-- `Ownership<T>` from gl_helper.rs:91-95. -/
inductive Ownership (T : Type) where
  | borrowed (t : T) : Ownership T
  | owned (t : T) : Ownership T
  | none : Ownership T
deriving DecidableEq, Repr

/-- `impl Drop for Texture` (gl_helper.rs:780-787): issue
`gl::DeleteTextures` on the handle exactly when the ownership is
`Owned`; `Borrowed` and `None` issue nothing.  The result is the list of
handles passed to the native delete call. -/
def Texture.dropCalls : Ownership Nat → List Nat
  | Ownership.owned h => [h]
  | Ownership.borrowed _ => []
  | Ownership.none => []

/-- `impl Drop for Shader` (gl_helper.rs:372-378): `self.handle.take()`;
when it held a handle, issue `gl::DeleteShader` on it. -/
def Shader.dropCalls : Option Nat → List Nat
  | some h => [h]
  | Option.none => []

/-- `Shader::unmanage` (gl_helper.rs:351-353): take the handle out of the
wrapper (`self.handle.take().unwrap()`), leaving `None` behind, so the
destructor has nothing to delete; panics when the handle was already
gone. -/
def Shader.unmanage : Option Nat → RustOutcome (Nat × Option Nat)
  | some h => RustOutcome.ok (h, Option.none)
  | Option.none => RustOutcome.panicked unwrapPanicMsg

/-- The native delete calls a `Shader` wrapper issues across its whole
lifetime: construction stores `Some handle`
(gl_helper.rs:312-319); optionally `unmanage` is called, emptying the
wrapper; destruction then runs `Shader.dropCalls` on whatever is left. -/
def shaderLifetimeDeletes (handle : Nat) (useUnmanage : Bool) : List Nat :=
  let state : Option Nat := some handle
  let state := if useUnmanage then Option.none else state
  Shader.dropCalls state

/-!
## VertexBufferBundle and reuse (gl_fancy.rs:239-365)

Native handle allocation is modelled by a counter: `gl::GenVertexArrays`
hands out the next unused name.  `Rc<Buffer<..>>` sharing means the clone
carries the same native handle.
-/

/-- The vertex-array name allocator (`gl::GenVertexArrays`): hands out
`next` and increments it.  All previously allocated names are smaller
than `next`. -/
structure GlAlloc where
  next : Nat
deriving DecidableEq, Repr

/-- `VertexArray::incomplete` (gl_helper.rs:129-134):
`gl::GenVertexArrays(1, ..)` then an error-queue check; on success the
fresh name is returned. -/
def VertexArray.incomplete (alloc : GlAlloc) (genQueue : List GLenum) :
    Except GLErrorWrapper (Nat × GlAlloc) :=
  match (explode_if_gl_error genQueue).1 with
  | Except.error e => Except.error e
  | Except.ok _ => Except.ok (alloc.next, { next := alloc.next + 1 })

/-- `VertexBufferBundle` (gl_fancy.rs:239-244): a uniquely owned
vertex-array handle, reference-counted vertex and index buffer handles,
and the index count. -/
structure VertexBufferBundle where
  vertex_array : Nat
  vertex_buffer : Nat
  index_buffer : Nat
  index_count : Nat
deriving DecidableEq, Repr

/-- The native side of one `BoundVertexArray::rig_one_attribute` call
(gl_fancy.rs:549-570): the error queues observed after
`gl::VertexAttribPointer` and after `gl::EnableVertexAttribArray`. -/
structure RigAttributeWorld where
  pointerQueue : List GLenum
  enableQueue : List GLenum
deriving DecidableEq, Repr

/-- `BoundVertexArray::rig_one_attribute` (gl_fancy.rs:549-570): issue
the two native calls, checking the error queue after each. -/
def rig_one_attribute (w : RigAttributeWorld) : Except GLErrorWrapper Unit :=
  match (explode_if_gl_error w.pointerQueue).1 with
  | Except.error e => Except.error e
  | Except.ok _ => (explode_if_gl_error w.enableQueue).1

/-- `BoundVertexArray::rig_multi_attributes` (gl_fancy.rs:591-600): rig
each attribute in order, stopping at the first failure. -/
def rig_multi_attributes : List RigAttributeWorld → Except GLErrorWrapper Unit
  | [] => Except.ok ()
  | w :: rest =>
    match rig_one_attribute w with
    | Except.error e => Except.error e
    | Except.ok _ => rig_multi_attributes rest

/-- `VertexBufferBundle::reuse` (gl_fancy.rs:348-364):
`VertexArray::incomplete()?` allocates a fresh vertex-array name;
`vao.bound(gpu_state)?` binds it (error queue `bindQueue`);
`rig_multi_attributes(stride, attributes)?` wires the attributes; the
returned bundle pairs the fresh vertex array with `Rc::clone`s of the
source bundle's vertex and index buffers and copies its index count. -/
def VertexBufferBundle.reuse (b : VertexBufferBundle) (alloc : GlAlloc)
    (genQueue bindQueue : List GLenum) (attributes : List RigAttributeWorld) :
    Except GLErrorWrapper (VertexBufferBundle × GlAlloc) :=
  match VertexArray.incomplete alloc genQueue with
  | Except.error e => Except.error e
  | Except.ok (vao, alloc1) =>
  match (explode_if_gl_error bindQueue).1 with
  | Except.error e => Except.error e
  | Except.ok _ =>
  match rig_multi_attributes attributes with
  | Except.error e => Except.error e
  | Except.ok _ =>
    Except.ok
      ({ vertex_array := vao,
         vertex_buffer := b.vertex_buffer,
         index_buffer := b.index_buffer,
         index_count := b.index_count }, alloc1)

/-!
## The stereo presentation loop (openxr_helpers.rs:256-366, errors.rs)

`OpenXRComponent::paint_vr_multiview` is embedded as a function from the
results the OpenXR runtime returns at each step (frame wait, frame begin,
locate-views, then per eye: acquire, wait, release) to the trace of
observable events (native calls and callback invocations) plus the
function's outcome.  Indexing `sci[buffer_index as usize]` out of range
panics, which the model makes explicit.
-/

/-- An `openxr_sys::Result` code. -/
abbrev XrResult := Int

instance {ε α : Type} [DecidableEq ε] [DecidableEq α] :
    DecidableEq (Except ε α) := fun a b =>
  match a, b with
  | Except.error e, Except.error f =>
      if h : e = f then isTrue (by rw [h]) else
        isFalse (fun hc => h (by injection hc))
  | Except.error _, Except.ok _ => isFalse (fun hc => by injection hc)
  | Except.ok _, Except.error _ => isFalse (fun hc => by injection hc)
  | Except.ok a, Except.ok b =>
      if h : a = b then isTrue (by rw [h]) else
        isFalse (fun hc => h (by injection hc))

/-- `XrErrorWrapped` from errors.rs:3-6. -/
structure XrErrorWrapped where
  xr_err : Option String
  detail : String
deriving DecidableEq, Repr

namespace XrErrorWrapped

/-- The Debug text of an `openxr_sys::Result` (abstracted as its numeric
code). -/
def debugText (e : XrResult) : String := toString e

/-- `XrErrorWrapped::build(e, None, msg)` (errors.rs:23-33): with no
instance available, the error string is `"OpenXR failed {:?}"` of the
code, paired with the annotation `msg`. -/
def build (e : XrResult) (msg : String) : XrErrorWrapped :=
  { xr_err := some ("OpenXR failed " ++ debugText e), detail := msg }

end XrErrorWrapped

/-- Observable events of one `paint_vr_multiview` call: the per-eye
native swapchain calls, the three callback invocations, and the final
`frame_stream.end` submission (which carries the composed projection
layer). -/
inductive XrEvent where
  | acquireImage (eye : Nat)
  | waitImage (eye : Nat)
  | paintOneView (eye : Nat)
  | releaseImage (eye : Nat)
  | beforePaint
  | afterPaint
  | frameEnd
deriving DecidableEq, Repr

/-- Per-eye runtime behaviour: the results of `acquire_image`,
`wait_image` and `release_image` for this eye's swapchain, and the length
of this eye's swapchain image list (`sci.len()`). -/
structure EyeWorld where
  acquire : Except XrResult Nat
  wait : Except XrResult Unit
  release : Except XrResult Unit
  imageCount : Nat
deriving DecidableEq, Repr

/-- Frame-level runtime behaviour: results of `frame_waiter.wait()`,
`frame_stream.begin()`, `locate_views`, the per-eye worlds (one entry per
zipped swapchain/image-list/view/view-config tuple), and the result of
`frame_stream.end`. -/
structure FrameWorld where
  waitFrame : Except XrResult Unit
  beginFrame : Except XrResult Unit
  locateViews : Except XrResult Unit
  eyes : List EyeWorld
  endFrame : Except XrResult Unit
deriving DecidableEq, Repr

/-- Outcome of one `paint_vr_multiview` call. -/
inductive FrameOutcome where
  | ok
  | err (e : XrErrorWrapped)
  | panicked
deriving DecidableEq, Repr

/-- The body of the per-eye loop (openxr_helpers.rs:286-325) for one eye
at index `i`: `acquire_image` (on `Err`, record a malfunction and
`continue`), `wait_image` (same), index the image list (out of range
panics), `paint_one_view`, `release_image` (on `Err`, record a
malfunction and `continue`).  Returns this eye's events, its recorded
malfunctions, and whether it panicked. -/
def eyeStep (i : Nat) (e : EyeWorld) :
    List XrEvent × List XrErrorWrapped × Bool :=
  match e.acquire with
  | Except.error r =>
      ([XrEvent.acquireImage i],
       [XrErrorWrapped.build r "failed to acquire swapchain image"], false)
  | Except.ok idx =>
    match e.wait with
    | Except.error r =>
        ([XrEvent.acquireImage i, XrEvent.waitImage i],
         [XrErrorWrapped.build r "failed to wait for swapchain image"], false)
    | Except.ok _ =>
      if idx < e.imageCount then
        match e.release with
        | Except.error r =>
            ([XrEvent.acquireImage i, XrEvent.waitImage i,
              XrEvent.paintOneView i, XrEvent.releaseImage i],
             [XrErrorWrapped.build r "failed to release swapchain image"], false)
        | Except.ok _ =>
            ([XrEvent.acquireImage i, XrEvent.waitImage i,
              XrEvent.paintOneView i, XrEvent.releaseImage i], [], false)
      else
        ([XrEvent.acquireImage i, XrEvent.waitImage i], [], true)

/-- The per-eye loop over all eyes starting at index `i`: concatenates
each eye's events and malfunctions in order; a panic aborts the loop
immediately. -/
def runEyes (i : Nat) : List EyeWorld → List XrEvent × List XrErrorWrapped × Bool
  | [] => ([], [], false)
  | e :: rest =>
    let (evts, mals, pan) := eyeStep i e
    if pan then (evts, mals, true)
    else
      let (evts2, mals2, pan2) := runEyes (i + 1) rest
      (evts ++ evts2, mals ++ mals2, pan2)

/-- `OpenXRComponent::paint_vr_multiview` (openxr_helpers.rs:256-366):
frame wait, frame begin and locate-views each propagate an annotated
error with `?`; then `before_paint` runs, the per-eye loop runs over all
eyes, `after_paint` runs; all collected malfunctions are logged and the
first one (if any) is returned, skipping composition; otherwise the
projection layer is composed and submitted through `frame_stream.end`,
whose failure propagates annotated. -/
def paint_vr_multiview (w : FrameWorld) : List XrEvent × FrameOutcome :=
  match w.waitFrame with
  | Except.error r =>
      ([], FrameOutcome.err (XrErrorWrapped.build r "failed to wait for frame"))
  | Except.ok _ =>
  match w.beginFrame with
  | Except.error r =>
      ([], FrameOutcome.err (XrErrorWrapped.build r "failed to frame_stream.begin"))
  | Except.ok _ =>
  match w.locateViews with
  | Except.error r =>
      ([], FrameOutcome.err (XrErrorWrapped.build r "failed to locate_views"))
  | Except.ok _ =>
    let (evts, mals, pan) := runEyes 0 w.eyes
    let pre := XrEvent.beforePaint :: evts
    if pan then (pre, FrameOutcome.panicked)
    else
      let traced := pre ++ [XrEvent.afterPaint]
      match mals.head? with
      | some e => (traced, FrameOutcome.err e)
      | Option.none =>
        match w.endFrame with
        | Except.error r =>
            (traced ++ [XrEvent.frameEnd],
             FrameOutcome.err (XrErrorWrapped.build r "failed to frame_stream.end"))
        | Except.ok _ => (traced ++ [XrEvent.frameEnd], FrameOutcome.ok)

/-- A concrete reflection table for a linked program that has a uniform
`uPos` at slot 3 and nothing else. -/
def lookupTableUPos : String → Int := fun n => if n = "uPos" then 3 else -1

/-- `Program::compile` takes no panicking path exactly when the error
queues checked with `.unwrap()` — after `gl::CreateProgram`, after each
`gl::AttachShader`, and the two around linking — are all empty. -/
def programPanicFree (w : ProgramWorld) : Prop :=
  w.createProgramQueue = [] ∧ w.attachVertexQueue = []
    ∧ w.attachFragmentQueue = [] ∧ w.linkQueue = [] ∧ w.linkStatusQueue = []

/-- A `ShaderWorld` in which every native call succeeds and the stage
compiles. -/
def shaderOkWorld : ShaderWorld :=
  { newRawQueue := [], sourceQueue := [], compileQueue := [],
    compileStatus := true, infoLog := "" }

/-- A `ProgramWorld` in which both stages compile but the error queue
observed right after `gl::CreateProgram` holds code 0x501
(`GL_INVALID_VALUE`): `Self::new_empty().unwrap()` panics. -/
def programAllocFailWorld : ProgramWorld :=
  { vertex := shaderOkWorld, fragment := shaderOkWorld,
    createProgramQueue := [0x501], attachVertexQueue := [],
    attachFragmentQueue := [], linkQueue := [], linkStatusQueue := [],
    linkStatus := true, programInfoLog := "" }

/-- The source bundle of the C7 witness: vertex array 0, shared buffers
10 and 11, three indices. -/
def reuseWitnessSrc : VertexBufferBundle :=
  { vertex_array := 0, vertex_buffer := 10, index_buffer := 11,
    index_count := 3 }

/-- The bundle produced by the C7 witness: fresh vertex array 1, the same
shared buffers and index count. -/
def reuseWitnessOut : VertexBufferBundle :=
  { vertex_array := 1, vertex_buffer := 10, index_buffer := 11,
    index_count := 3 }

/-- A `ProgramWorld` in which the vertex stage fails to compile with
info log "bad vertex" and everything else would succeed. -/
def vertexFailWorld : ProgramWorld :=
  { vertex := { newRawQueue := [], sourceQueue := [], compileQueue := [],
                compileStatus := false, infoLog := "bad vertex" },
    fragment := shaderOkWorld,
    createProgramQueue := [], attachVertexQueue := [],
    attachFragmentQueue := [], linkQueue := [], linkStatusQueue := [],
    linkStatus := true, programInfoLog := "" }

/-- An eye whose swapchain `acquire_image` fails with code -12; the other
steps would succeed. -/
def eyeAcquireFail : EyeWorld :=
  { acquire := Except.error (-12), wait := Except.ok (),
    release := Except.ok (), imageCount := 1 }

/-- An eye whose swapchain calls all succeed, acquiring image index 0 of
a one-image swapchain. -/
def eyeAllOk : EyeWorld :=
  { acquire := Except.ok 0, wait := Except.ok (),
    release := Except.ok (), imageCount := 1 }

/-- A frame in which the frame-level steps succeed, eye 0's acquire
fails and eye 1 succeeds (the spec's P6 scenario). -/
def frameWorldEyeZeroFails : FrameWorld :=
  { waitFrame := Except.ok (), beginFrame := Except.ok (),
    locateViews := Except.ok (), eyes := [eyeAcquireFail, eyeAllOk],
    endFrame := Except.ok () }

/-- A frame in which the frame-level steps succeed but every per-eye
step fails (the single eye's acquire fails). -/
def frameWorldAllEyesFail : FrameWorld :=
  { waitFrame := Except.ok (), beginFrame := Except.ok (),
    locateViews := Except.ok (), eyes := [eyeAcquireFail],
    endFrame := Except.ok () }

/-!
## Helper lemmas
-/

lemma drainLoop_all_ne (queue : List GLenum) :
    ∀ last : Option GLenum, (∀ c ∈ queue, c ≠ NO_ERROR) →
      drainLoop queue last = (if queue = [] then last else queue.getLast?, []) := by
  induction queue with
  | nil => intro last _; rfl
  | cons e rest ih =>
      intro last h
      have he : e ≠ NO_ERROR := h e (List.mem_cons_self e rest)
      have hrest : ∀ c ∈ rest, c ≠ NO_ERROR :=
        fun c hc => h c (List.mem_cons_of_mem e hc)
      simp only [drainLoop, if_neg he]
      rw [ih (some e) hrest]
      rcases rest with _ | ⟨f, rest2⟩
      · simp
      · simp [List.getLast?_cons_cons]

/-!
## Claim theorems
-/

/-- C6: `explode_if_gl_error` polls the native error queue in a loop until
the queue reports no error (the queue is fully drained), returns `Ok`
exactly when the queue was already empty, and otherwise returns an error
wrapping the last non-no-error code seen during the drain.  The
hypothesis reflects the native invariant that the error queue never
contains the `NO_ERROR` code. -/
theorem claim_C6_error_queue_drain (queue : List GLenum)
    (h : ∀ c ∈ queue, c ≠ NO_ERROR) :
    ((explode_if_gl_error queue).1 = Except.ok () ↔ queue = [])
    ∧ (explode_if_gl_error queue).2 = []
    ∧ (∀ e, queue.getLast? = some e →
        (explode_if_gl_error queue).1 = Except.error (GLErrorWrapper.new e)) := by
  have hd := drainLoop_all_ne queue Option.none h
  by_cases hq : queue = []
  · subst hq
    refine ⟨by simp [explode_if_gl_error, drainLoop], ?_, ?_⟩
    · simp [explode_if_gl_error, drainLoop]
    · intro e he
      simp at he
  · rw [if_neg hq] at hd
    have hs : queue.getLast?.isSome := List.getLast?_isSome.mpr hq
    obtain ⟨e, he⟩ := Option.isSome_iff_exists.mp hs
    rw [he] at hd
    have hexp : explode_if_gl_error queue
        = (Except.error (GLErrorWrapper.new e), []) := by
      simp [explode_if_gl_error, hd]
    refine ⟨?_, ?_, ?_⟩
    · rw [hexp]
      simp [hq]
    · rw [hexp]
    · intro f hf
      rw [he] at hf
      cases hf
      rw [hexp]

/-- Witness for C6 at the concrete queue `[5, 7]`: both codes are
non-`NO_ERROR`, the drain empties the queue, `Ok` is not returned, and
the error wraps the last code 7. -/
theorem claim_C6_error_queue_drain_witness :
    ((explode_if_gl_error [5, 7]).1 = Except.ok () ↔ ([5, 7] : List GLenum) = [])
    ∧ (explode_if_gl_error [5, 7]).2 = []
    ∧ (∀ e, ([5, 7] : List GLenum).getLast? = some e →
        (explode_if_gl_error [5, 7]).1 = Except.error (GLErrorWrapper.new e)) :=
  claim_C6_error_queue_drain [5, 7] (by decide)

/-- C2: `GPUState::bind_vertex_array_and_buffers` binds the vertex array,
then the vertex buffer, then the index buffer; dropping the
`BoundBuffers` token restores the null handle 0 at each binding point in
reverse order (index buffer, array buffer, vertex array); and after the
bind → use → drop sequence every binding point holds the null handle
again, whatever state the context started in — no binding established by
the token survives its scope. -/
theorem claim_C2_bind_unbind_order (s : GLBindings) (va vb ib : Nat) :
    bind_vertex_array_and_buffers va vb ib =
      [BindCall.bindVertexArray va, BindCall.bindArrayBuffer vb,
       BindCall.bindElementArrayBuffer ib]
    ∧ boundBuffersDropCalls =
      [BindCall.bindElementArrayBuffer 0, BindCall.bindArrayBuffer 0,
       BindCall.bindVertexArray 0]
    ∧ applyBindCalls s
        (bind_vertex_array_and_buffers va vb ib ++ boundBuffersUseCalls
          ++ boundBuffersDropCalls) =
      { vertexArrayBinding := 0, arrayBufferBinding := 0,
        elementArrayBufferBinding := 0 } := by
  refine ⟨rfl, rfl, ?_⟩
  simp [bind_vertex_array_and_buffers, boundBuffersUseCalls,
    boundBuffersDropCalls, applyBindCalls, applyBindCall]

/-- C8: a `Texture` in `Owned` mode issues the native delete call for its
handle exactly once at destruction and a `Borrowed` texture never issues
it; a `Shader` deletes its handle at most once across its lifetime — once
when destroyed while still managed, and zero times when `unmanage` took
the handle out before destruction (and `unmanage` itself leaves the
wrapper empty without deleting). -/
theorem claim_C8_single_release (h : Nat) (useUnmanage : Bool) :
    (Texture.dropCalls (Ownership.owned h)).count h = 1
    ∧ Texture.dropCalls (Ownership.borrowed h) = []
    ∧ Shader.unmanage (some h) = RustOutcome.ok (h, Option.none)
    ∧ (shaderLifetimeDeletes h useUnmanage).length ≤ 1
    ∧ (shaderLifetimeDeletes h useUnmanage).count h
        = (if useUnmanage then 0 else 1) := by
  refine ⟨?_, rfl, rfl, ?_, ?_⟩
  · simp [Texture.dropCalls]
  · cases useUnmanage <;> simp [shaderLifetimeDeletes, Shader.dropCalls]
  · cases useUnmanage <;> simp [shaderLifetimeDeletes, Shader.dropCalls]

/-- C4 counterexample: at `width = height = 65536` (RGB, `u8` pixels, an
empty pixel slice) the claim's mismatch condition holds —
`width*height*bytes_per_pixel = 3·2³² ≠ 0 = pixels.len()` — yet the `i32`
multiply `width * height` wraps to 0 in the shipped release build, so the
size check passes, no size-mismatch error is raised, and the native
upload is issued, refuting the claimed equivalence.  (A debug build
panics at the multiply instead, which is also not the claimed
size-mismatch failure.) -/
theorem claim_C4_counterexample :
    write_pixels 1 65536 65536 RGB 0 [] = (true, Except.ok ())
    ∧ ((65536 * 65536 : Int)).toNat * 3 ≠ 0 :=
  ⟨rfl, by decide⟩

/-- C4 as amended: for every call whose `i32` product `width * height`
does not overflow (factors non-negative, product below 2³¹ — every
realistic texture size), `write_pixels` fails with the size-mismatch
error, without issuing the native upload, exactly when
`width*height*bytes_per_pixel` differs from the pixel-data length; and
when the sizes agree (and the native upload itself reports no error) the
call succeeds with the upload issued. -/
theorem claim_C4_write_pixels_size_check (sizeT : Nat) (width height : Int)
    (format : GLenum) (pixelsLen : Nat) (q : List GLenum) (bpp : Nat)
    (hw0 : 0 ≤ width) (hh0 : 0 ≤ height)
    (hprod : width * height < 2 ^ 31)
    (hf : bytes_per_pixel sizeT format = Except.ok bpp) :
    (write_pixels sizeT width height format pixelsLen q
        = (false, Except.error (GLErrorWrapper.with_message2
            (sizeMismatchMsg width height bpp pixelsLen)))
      ↔ (width * height).toNat * bpp ≠ pixelsLen)
    ∧ ((width * height).toNat * bpp = pixelsLen → q = [] →
        write_pixels sizeT width height format pixelsLen q
          = (true, Except.ok ())) := by
  have hnn : 0 ≤ width * height := mul_nonneg hw0 hh0
  have hwrap : wrapI32 (width * height) = width * height := by
    have h1 : 0 ≤ width * height + 2 ^ 31 := add_nonneg hnn (by positivity)
    have h2 : width * height + 2 ^ 31 < 2 ^ 32 := by
      have e : (2 : Int) ^ 32 = 2 ^ 31 + 2 ^ 31 := by norm_num
      linarith
    unfold wrapI32
    rw [Int.emod_eq_of_lt h1 h2]
    ring
  have hlt : width * height < 2 ^ 64 := lt_trans hprod (by norm_num)
  have hcast : castUsize (wrapI32 (width * height))
      = (width * height).toNat := by
    rw [hwrap]
    unfold castUsize
    rw [Int.emod_eq_of_lt hnn hlt]
  constructor
  · constructor
    · intro hc heq
      rw [write_pixels] at hc
      simp only [hf, hcast] at hc
      rw [if_neg (by simp [heq])] at hc
      simp at hc
    · intro hne
      simp only [write_pixels, hf, hcast]
      rw [if_pos hne]
  · intro heq hq
    subst hq
    simp only [write_pixels, hf, hcast]
    rw [if_neg (by simp [heq])]
    rfl

/-- Witness for C4 at the concrete inputs of the spec's P3: a 4×4 RGB
upload of `u8` pixels (`sizeT = 1`, so `bytes_per_pixel = 3`): 40 bytes
of data are rejected with the size-mismatch error before the upload,
48 bytes are accepted and uploaded. -/
theorem claim_C4_write_pixels_size_check_witness :
    bytes_per_pixel 1 RGB = Except.ok 3
    ∧ write_pixels 1 4 4 RGB 40 []
        = (false, Except.error (GLErrorWrapper.with_message2
            (sizeMismatchMsg 4 4 3 40)))
    ∧ write_pixels 1 4 4 RGB 48 [] = (true, Except.ok ()) :=
  ⟨rfl,
   (claim_C4_write_pixels_size_check 1 4 4 RGB 40 [] 3 (by decide) (by decide)
      (by decide) rfl).1.mpr (by decide),
   (claim_C4_write_pixels_size_check 1 4 4 RGB 48 [] 3 (by decide) (by decide)
      (by decide) rfl).2 (by decide) rfl⟩

/-- C7: a successful `VertexBufferBundle::reuse` yields a bundle that
shares the source bundle's reference-counted vertex and index buffers
(identical native handles) and index count, while its vertex array is the
freshly allocated name — distinct from the source bundle's vertex array,
whose name was handed out earlier by the same allocator. -/
theorem claim_C7_reuse_shares_buffers (b b2 : VertexBufferBundle)
    (alloc alloc2 : GlAlloc) (genQ bindQ : List GLenum)
    (attrs : List RigAttributeWorld)
    (hlive : b.vertex_array < alloc.next)
    (hs : VertexBufferBundle.reuse b alloc genQ bindQ attrs
        = Except.ok (b2, alloc2)) :
    b2.vertex_buffer = b.vertex_buffer
    ∧ b2.index_buffer = b.index_buffer
    ∧ b2.index_count = b.index_count
    ∧ b2.vertex_array = alloc.next
    ∧ b2.vertex_array ≠ b.vertex_array := by
  unfold VertexBufferBundle.reuse VertexArray.incomplete at hs
  rcases h1 : (explode_if_gl_error genQ).1 with e | u
  · rw [h1] at hs
    cases hs
  · rw [h1] at hs
    rcases h2 : (explode_if_gl_error bindQ).1 with e | u2
    · rw [h2] at hs
      cases hs
    · rw [h2] at hs
      rcases h3 : rig_multi_attributes attrs with e | u3
      · rw [h3] at hs
        cases hs
      · rw [h3] at hs
        cases hs
        exact ⟨rfl, rfl, rfl, rfl, Nat.ne_of_gt hlive⟩

/-- Witness for C7: reusing a bundle whose vertex array is name 0 and
whose shared buffers are names 10/11, with the allocator at 1 and all
native calls succeeding, yields vertex array 1 with the same buffers. -/
theorem claim_C7_reuse_shares_buffers_witness :
    VertexBufferBundle.reuse reuseWitnessSrc { next := 1 } [] [] []
      = Except.ok (reuseWitnessOut, { next := 2 })
    ∧ reuseWitnessOut.vertex_buffer = reuseWitnessSrc.vertex_buffer
    ∧ reuseWitnessOut.index_buffer = reuseWitnessSrc.index_buffer
    ∧ reuseWitnessOut.vertex_array ≠ reuseWitnessSrc.vertex_array := by
  have h := claim_C7_reuse_shares_buffers reuseWitnessSrc reuseWitnessOut
    { next := 1 } { next := 2 } [] [] [] (by decide) rfl
  exact ⟨rfl, h.1, h.2.1, h.2.2.2.2⟩

/-- C3 evaluated at the failing input: on a linked program whose only
uniform is `uPos` at slot 3, `get_attribute_location("nonexistent")`
panics (`panic!("no attribute named {} on this program", p0)`) instead of
returning a recoverable error, while `get_uniform_location` on the same
missing name returns the recoverable `Err` naming the identifier, and a
subsequent lookup of the existing name still succeeds. -/
theorem claim_C3_attribute_lookup_panics :
    Program.get_attribute_location lookupTableUPos [] "nonexistent"
      = RustOutcome.panicked "no attribute named nonexistent on this program"
    ∧ Program.get_uniform_location lookupTableUPos [] "nonexistent"
      = RustOutcome.err
          (GLErrorWrapper.with_message "no attribute named nonexistent")
    ∧ Program.get_uniform_location lookupTableUPos [] "uPos"
      = RustOutcome.ok 3 :=
  ⟨rfl, rfl, rfl⟩

/-- C5 counterexample: with both shader stages compiling fine but the
error queue after `gl::CreateProgram` non-empty (allocation failed),
`Program::compile` panics (`Self::new_empty().unwrap()`) instead of
propagating a returned error — refuting the claim that every
construction-time failure is returned to the caller and never a crash. -/
theorem claim_C5_counterexample :
    Program.compile programAllocFailWorld
      = RustOutcome.panicked unwrapPanicMsg := rfl

/-- C5 as amended: failures of the two shader stages (including compile
errors, which carry the native info log) and a false link status (which
carries the program info log) are propagated to the caller as returned
errors and no `Program` value is produced; but failures of program-object
allocation, shader attachment, or the error-queue checks around linking
panic instead of returning.  Under the panic-free condition the result is
`Ok` exactly when the link status is positive. -/
theorem claim_C5_amended (w : ProgramWorld) :
    (∀ e, Shader.compile w.vertex = Except.error e →
        Program.compile w = RustOutcome.err e)
    ∧ (Shader.compile w.vertex = Except.ok () →
        ∀ e, Shader.compile w.fragment = Except.error e →
          Program.compile w = RustOutcome.err e)
    ∧ (Shader.compile w.vertex = Except.ok () →
        Shader.compile w.fragment = Except.ok () →
        programPanicFree w →
        Program.compile w = (if w.linkStatus then RustOutcome.ok ()
          else RustOutcome.err
            (GLErrorWrapper.with_message w.programInfoLog)))
    ∧ (w.vertex.newRawQueue = [] → w.vertex.sourceQueue = [] →
        w.vertex.compileQueue = [] → w.vertex.compileStatus = false →
        Shader.compile w.vertex
          = Except.error (GLErrorWrapper.with_message w.vertex.infoLog)) := by
  refine ⟨?_, ?_, ?_, ?_⟩
  · intro e he
    simp [Program.compile, he]
  · intro hv e he
    simp [Program.compile, hv, he]
  · intro hv hf hp
    obtain ⟨h1, h2, h3, h4, h5⟩ := hp
    simp only [Program.compile, hv, hf, h1, h2, h3, h4, h5]
    cases hls : w.linkStatus <;>
      simp [explode_if_gl_error, drainLoop, hls]
  · intro h1 h2 h3 h4
    simp [Shader.compile, h1, h2, h3, h4, explode_if_gl_error, drainLoop]

/-- Witness for C5 (amended) at a concrete world where the vertex stage
fails to compile with info log "bad vertex": the failure is returned as
an error carrying that log. -/
theorem claim_C5_amended_witness :
    Shader.compile vertexFailWorld.vertex
      = Except.error (GLErrorWrapper.with_message "bad vertex")
    ∧ Program.compile vertexFailWorld
      = RustOutcome.err (GLErrorWrapper.with_message "bad vertex") :=
  ⟨rfl, (claim_C5_amended vertexFailWorld).1 _ rfl⟩

lemma eyeStep_events (i : Nat) (e : EyeWorld) :
    (eyeStep i e).1 = [XrEvent.acquireImage i]
    ∨ (eyeStep i e).1 = [XrEvent.acquireImage i, XrEvent.waitImage i]
    ∨ (eyeStep i e).1 = [XrEvent.acquireImage i, XrEvent.waitImage i,
        XrEvent.paintOneView i, XrEvent.releaseImage i] := by
  rcases ha : e.acquire with r | idx
  · left
    simp [eyeStep, ha]
  · rcases hwt : e.wait with r | u
    · right; left
      simp [eyeStep, ha, hwt]
    · by_cases hi : idx < e.imageCount
      · rcases hr : e.release with r | u2
        · right; right
          simp [eyeStep, ha, hwt, hi, hr]
        · right; right
          simp [eyeStep, ha, hwt, hi, hr]
      · right; left
        simp [eyeStep, ha, hwt, hi]

lemma runEyes_mem_shape (eyes : List EyeWorld) :
    ∀ (i : Nat) (x : XrEvent), x ∈ (runEyes i eyes).1 →
      ∃ j, x = XrEvent.acquireImage j ∨ x = XrEvent.waitImage j
        ∨ x = XrEvent.paintOneView j ∨ x = XrEvent.releaseImage j := by
  induction eyes with
  | nil =>
      intro i x hx
      simp [runEyes] at hx
  | cons e rest ih =>
      intro i x hx
      rcases hs : eyeStep i e with ⟨evts, mals, pan⟩
      have hmem : x ∈ evts → ∃ j, x = XrEvent.acquireImage j
          ∨ x = XrEvent.waitImage j ∨ x = XrEvent.paintOneView j
          ∨ x = XrEvent.releaseImage j := by
        intro hx2
        rcases eyeStep_events i e with h3 | h3 | h3 <;>
          rw [hs] at h3 <;> simp at h3 <;> subst h3 <;>
            simp at hx2 <;> exact ⟨i, by tauto⟩
      rcases pan with _ | _
      · rcases hs2 : runEyes (i + 1) rest with ⟨evts2, mals2, pan2⟩
        simp [runEyes, hs, hs2] at hx
        rcases hx with hx | hx
        · exact hmem hx
        · have := ih (i + 1) x
          rw [hs2] at this
          exact this (by simpa using hx)
      · simp [runEyes, hs] at hx
        exact hmem hx

lemma eyeStep_release_mem (i j : Nat) (e : EyeWorld)
    (hnp : (eyeStep i e).2.2 = false) :
    XrEvent.releaseImage j ∈ (eyeStep i e).1 ↔
      (j = i ∧ (∃ idx, e.acquire = Except.ok idx)
        ∧ e.wait = Except.ok ()) := by
  rcases ha : e.acquire with r | idx
  · simp [eyeStep, ha]
  · rcases hwt : e.wait with r | u
    · simp [eyeStep, ha, hwt]
    · by_cases hi : idx < e.imageCount
      · rcases hr : e.release with r | u2 <;>
          simp [eyeStep, ha, hwt, hi, hr]
      · exfalso
        simp [eyeStep, ha, hwt, hi] at hnp

lemma runEyes_release_mem (eyes : List EyeWorld) :
    ∀ (i j : Nat), (runEyes i eyes).2.2 = false →
      (XrEvent.releaseImage j ∈ (runEyes i eyes).1 ↔
        ∃ k e', eyes[k]? = some e' ∧ i + k = j
          ∧ (∃ idx, e'.acquire = Except.ok idx)
          ∧ e'.wait = Except.ok ()) := by
  induction eyes with
  | nil =>
      intro i j _
      simp [runEyes]
  | cons e rest ih =>
      intro i j hnp
      rcases hs : eyeStep i e with ⟨evts, mals, pan⟩
      rcases pan with _ | _
      · rcases hs2 : runEyes (i + 1) rest with ⟨evts2, mals2, pan2⟩
        have hpan2 : pan2 = false := by
          have := hnp
          simp [runEyes, hs, hs2] at this
          exact this
        subst hpan2
        have hstep := eyeStep_release_mem i j e (by rw [hs])
        rw [hs] at hstep
        have hrest := ih (i + 1) j (by rw [hs2])
        rw [hs2] at hrest
        simp only [runEyes, hs, hs2] at *
        constructor
        · intro hx
          rcases List.mem_append.mp (by simpa using hx) with hx2 | hx2
          · obtain ⟨rfl, hP⟩ := hstep.mp hx2
            exact ⟨0, e, by simp, by simp, hP⟩
          · obtain ⟨k, e', hk, hij, hP⟩ := hrest.mp hx2
            refine ⟨k + 1, e', by simpa using hk, by omega, hP⟩
        · rintro ⟨k, e', hk, hij, hP⟩
          rcases k with _ | k'
          · simp only [List.getElem?_cons_zero, Option.some.injEq] at hk
            subst hk
            exact List.mem_append.mpr (Or.inl (hstep.mpr ⟨by omega, hP⟩))
          · simp only [List.getElem?_cons_succ] at hk
            exact List.mem_append.mpr
              (Or.inr (hrest.mpr ⟨k', e', hk, by omega, hP⟩))
      · exfalso
        simp [runEyes, hs] at hnp

lemma paint_vr_multiview_trace (w : FrameWorld)
    (hwf : w.waitFrame = Except.ok ()) (hbf : w.beginFrame = Except.ok ())
    (hlv : w.locateViews = Except.ok ())
    (hnp : (runEyes 0 w.eyes).2.2 = false) :
    (paint_vr_multiview w).1
      = XrEvent.beforePaint :: (runEyes 0 w.eyes).1 ++ [XrEvent.afterPaint]
        ++ (if (runEyes 0 w.eyes).2.1 = [] then [XrEvent.frameEnd] else []) := by
  rcases hs : runEyes 0 w.eyes with ⟨evts, mals, pan⟩
  rw [hs] at hnp
  simp at hnp
  subst hnp
  rcases mals with _ | ⟨m, ms⟩
  · rcases hef : w.endFrame with r | u <;>
      simp [paint_vr_multiview, hwf, hbf, hlv, hs, hef]
  · simp [paint_vr_multiview, hwf, hbf, hlv, hs]

/-- C1: in a two-eye frame whose frame-level steps succeed, when eye 0's
swapchain acquire fails and eye 1's acquire and wait succeed, the
`paint_one_view` callback still runs exactly once for eye 1 (and never
for eye 0); the function returns the first collected per-eye error — the
wrapped eye-0 acquire failure — and the projection-layer composition and
`frame_stream.end` are skipped entirely (no `frameEnd` event). -/
theorem claim_C1_per_eye_failure_isolation (w : FrameWorld)
    (e0 e1 : EyeWorld) (r0 : XrResult) (idx : Nat)
    (hwf : w.waitFrame = Except.ok ()) (hbf : w.beginFrame = Except.ok ())
    (hlv : w.locateViews = Except.ok ())
    (heyes : w.eyes = [e0, e1])
    (h0 : e0.acquire = Except.error r0)
    (h1a : e1.acquire = Except.ok idx) (h1i : idx < e1.imageCount)
    (h1w : e1.wait = Except.ok ()) :
    (paint_vr_multiview w).1.count (XrEvent.paintOneView 1) = 1
    ∧ (paint_vr_multiview w).1.count (XrEvent.paintOneView 0) = 0
    ∧ (paint_vr_multiview w).2
        = FrameOutcome.err
            (XrErrorWrapped.build r0 "failed to acquire swapchain image")
    ∧ XrEvent.frameEnd ∉ (paint_vr_multiview w).1 := by
  rcases hr : e1.release with r1 | u <;>
    simp [paint_vr_multiview, runEyes, eyeStep, hwf, hbf, hlv, heyes, h0,
      h1a, h1w, h1i, hr, List.count_cons, List.count_append]

/-- Witness for C1 at the concrete frame `frameWorldEyeZeroFails`. -/
theorem claim_C1_per_eye_failure_isolation_witness :
    (paint_vr_multiview frameWorldEyeZeroFails).1.count
        (XrEvent.paintOneView 1) = 1
    ∧ (paint_vr_multiview frameWorldEyeZeroFails).1.count
        (XrEvent.paintOneView 0) = 0
    ∧ (paint_vr_multiview frameWorldEyeZeroFails).2
        = FrameOutcome.err
            (XrErrorWrapped.build (-12) "failed to acquire swapchain image")
    ∧ XrEvent.frameEnd ∉ (paint_vr_multiview frameWorldEyeZeroFails).1 :=
  claim_C1_per_eye_failure_isolation frameWorldEyeZeroFails eyeAcquireFail
    eyeAllOk (-12) 0 rfl rfl rfl rfl rfl rfl (by decide) rfl

/-- C9: in a frame whose frame-level steps succeed and in which no
acquired image index is out of range of its swapchain's image list (the
call does not panic), `release_image` is invoked for an eye exactly when
both its `acquire_image` and its `wait_image` succeeded; in particular an
eye whose wait fails after a successful acquire is never released, and
later eyes are still processed. -/
theorem claim_C9_release_iff_acquire_and_wait (w : FrameWorld)
    (hwf : w.waitFrame = Except.ok ()) (hbf : w.beginFrame = Except.ok ())
    (hlv : w.locateViews = Except.ok ())
    (hnp : (runEyes 0 w.eyes).2.2 = false)
    (j : Nat) (e' : EyeWorld) (hj : w.eyes[j]? = some e') :
    XrEvent.releaseImage j ∈ (paint_vr_multiview w).1 ↔
      ((∃ idx, e'.acquire = Except.ok idx) ∧ e'.wait = Except.ok ()) := by
  rw [paint_vr_multiview_trace w hwf hbf hlv hnp]
  have hsplit : XrEvent.releaseImage j ∈
      (XrEvent.beforePaint :: (runEyes 0 w.eyes).1 ++ [XrEvent.afterPaint]
        ++ (if (runEyes 0 w.eyes).2.1 = [] then [XrEvent.frameEnd] else []))
      ↔ XrEvent.releaseImage j ∈ (runEyes 0 w.eyes).1 := by
    by_cases hm : (runEyes 0 w.eyes).2.1 = [] <;> simp [hm]
  rw [hsplit, runEyes_release_mem w.eyes 0 j hnp]
  constructor
  · rintro ⟨k, e2, hk, hij, hP⟩
    obtain rfl : k = j := by omega
    rw [hj] at hk
    injection hk with h
    subst h
    exact hP
  · intro hP
    exact ⟨j, e', hj, by omega, hP⟩

/-- Witness for C9: in `frameWorldEyeZeroFails`, eye 1 acquired and
waited successfully, so its release call appears in the trace. -/
theorem claim_C9_release_iff_acquire_and_wait_witness :
    XrEvent.releaseImage 1 ∈ (paint_vr_multiview frameWorldEyeZeroFails).1 :=
  (claim_C9_release_iff_acquire_and_wait frameWorldEyeZeroFails
      rfl rfl rfl rfl 1 eyeAllOk rfl).mpr ⟨⟨0, rfl⟩, rfl⟩

/-- C10: whenever the frame wait, frame begin and locate-views steps
succeed (and the call does not panic on an out-of-range image index),
the `after_paint` callback runs exactly once — even if every per-eye
step failed — and it runs before any aggregated per-eye error is
returned, since it is in the trace of every non-panicking completion. -/
theorem claim_C10_after_paint_always_runs (w : FrameWorld)
    (hwf : w.waitFrame = Except.ok ()) (hbf : w.beginFrame = Except.ok ())
    (hlv : w.locateViews = Except.ok ())
    (hnp : (runEyes 0 w.eyes).2.2 = false) :
    (paint_vr_multiview w).1.count XrEvent.afterPaint = 1 := by
  rw [paint_vr_multiview_trace w hwf hbf hlv hnp]
  have h0 : XrEvent.afterPaint ∉ (runEyes 0 w.eyes).1 := by
    intro hmem
    obtain ⟨j, hj⟩ := runEyes_mem_shape w.eyes 0 XrEvent.afterPaint hmem
    rcases hj with h | h | h | h <;> simp at h
  by_cases hm : (runEyes 0 w.eyes).2.1 = [] <;>
    simp [hm, List.count_cons, List.count_append,
      List.count_eq_zero.mpr h0]

/-- Witness for C10 at `frameWorldAllEyesFail`, where the only eye's
acquire fails and `after_paint` still runs exactly once. -/
theorem claim_C10_after_paint_always_runs_witness :
    (paint_vr_multiview frameWorldAllEyesFail).1.count
      XrEvent.afterPaint = 1 :=
  claim_C10_after_paint_always_runs frameWorldAllEyesFail rfl rfl rfl rfl

end GlThin
